import Mathlib

/-!
Shallow embedding of the conversation-orchestration core of the Conversa
backend: the AI service (`src/backend/src/services/ai.ts`), the tenant limit
check (`src/backend/src/services/database.ts`), the usage-limit middleware
(`src/backend/src/middleware/auth.ts`) and the chat-turn route handler
(`POST /message`, first unnamed source file).

Modelling conventions:
* Provider backends are I/O; they are modelled by an environment that maps a
  model id plus the sent payload to a deterministic outcome (failure or
  content, reported token usage, and the wall-clock duration of the call).
  Wall-clock time is a `Nat` counter that advances only across provider
  calls, which are the suspension points of a turn.
* JavaScript exceptions are modelled with `Option` (`none` = thrown).
* `string.length` and `match(/\?/g)` counts are modelled on the list of
  characters; `toLowerCase` is modelled by the ASCII `Char.toLower`.  All
  concrete inputs used below are ASCII, where the two agree.
* Floating-point cost estimation (`calculateOpenAICost`, `calculateClaudeCost`)
  is not modelled: no claim mentions cost and the arithmetic is IEEE floats.
* The Prisma store is modelled as lists of rows; `messages` is kept in
  creation order, so `orderBy createdAt desc, take 10` is `reverse.take 10`.
  The calendar-month window of the usage counts is part of the external
  query; the embedded `checkTenantLimits` receives the two counts as
  arguments, exactly as the TypeScript function receives them from Prisma.
-/

namespace Conversa

/-- The model identifiers of `ai.ts` (`type AIModel`). -/
inductive AIModel
  | gpt4
  | gpt4turbo
  | claude35sonnet
  | geminiPro
deriving DecidableEq, Repr

/-- Message complexity tiers returned by `detectComplexity`. -/
inductive Complexity
  | simple
  | medium
  | complex
deriving DecidableEq, Repr

/-- Roles in the conversation history sent to a provider. -/
inductive Role
  | user
  | assistant
deriving DecidableEq, Repr

/-- One entry of `context.conversationHistory`. -/
structure HistoryEntry where
  role : Role
  content : String
deriving DecidableEq, Repr

/-- The `ChatContext` interface of `ai.ts` (the `userInfo` passthrough field is
not modelled; no claim depends on it). -/
structure ChatContext where
  conversationHistory : Option (List HistoryEntry) := none
  systemPrompt : Option String := none
  companyInfo : Option String := none
deriving DecidableEq, Repr

/-- ASCII model of JavaScript `String.prototype.toLowerCase`. -/
def jsToLower (s : String) : String :=
  String.mk (s.data.map Char.toLower)

/-- Head match: `stemHead stem text` is true when `stem` occurs at the very
start of `text`. -/
def stemHead : List Char → List Char → Bool
  | [], _ => true
  | _ :: _, [] => false
  | c :: cs, t :: ts => c == t && stemHead cs ts

/-- Substring test: `stemInText stem text` is true when `stem` occurs
contiguously anywhere in
`text`?  This is the substring test a non-anchored regex alternative
performs. -/
def stemInText (stem : List Char) : List Char → Bool
  | [] => stem.isEmpty
  | t :: ts => stemHead stem (t :: ts) || stemInText stem ts

/-- The alternatives of the keyword regex in `detectComplexity`:
`/analiz|compar|evalua|explicar|detallar|complejo/`. -/
def keywordStems : List String :=
  ["analiz", "compar", "evalua", "explicar", "detallar", "complejo"]

/-- Keyword rule `hasKeywords` of `detectComplexity`: the regex is tested against
`message.toLowerCase()`. -/
def hasKeywords (message : String) : Bool :=
  keywordStems.any (fun k => stemInText k.data (jsToLower message).data)

/-- Number of `?` characters in the message (`message.match(/\?/g)` count). -/
def countQuestionMarks (message : String) : Nat :=
  message.data.count '?'

/-- Classifier `AIService.detectComplexity` (ai.ts lines 270-282). -/
def detectComplexity (message : String) : Complexity :=
  let length := message.length
  let hasQuestions := countQuestionMarks message
  if 200 < length ∨ 2 < hasQuestions ∨ hasKeywords message = true then
    Complexity.complex
  else if 50 < length ∨ 0 < hasQuestions then
    Complexity.medium
  else
    Complexity.simple

/-- Model selector `AIService.selectModelForTenant` (ai.ts lines 257-267). -/
def selectModelForTenant (plan : String) (complexity : Complexity) : AIModel :=
  if plan = "enterprise" then
    if complexity = Complexity.complex then AIModel.claude35sonnet else AIModel.gpt4turbo
  else if plan = "business" then
    if complexity = Complexity.simple then AIModel.geminiPro else AIModel.gpt4
  else if plan = "professional" then
    if complexity = Complexity.complex then AIModel.gpt4 else AIModel.geminiPro
  else
    AIModel.geminiPro

/-- Outcome of one remote provider call: `result = none` models a thrown
`ProviderError`; `tokens` is the usage the provider reports (OpenAI may omit
it); `elapsed` is the wall-clock duration of the call. -/
structure ProviderOutcome where
  result : Option String
  tokens : Option Nat
  elapsed : Nat
deriving DecidableEq, Repr

/-- Deterministic provider behaviour for one turn, indexed by the model and
the payload the adapter sends. -/
abbrev ProviderEnv := AIModel → String → ChatContext → ProviderOutcome

/-- The normalized `AIResponse` record of `ai.ts`. -/
structure AIResponse where
  content : String
  model : AIModel
  tokensUsed : Option Nat
  responseTime : Nat
deriving DecidableEq, Repr

/-- A record of one provider-backend invocation (which adapter was called and
with what payload). -/
structure CallRecord where
  model : AIModel
  message : String
  context : ChatContext
deriving DecidableEq, Repr

/-- The provider-specific adapters `generateOpenAIResponse`,
`generateClaudeResponse`, `generateGeminiResponse` (ai.ts lines 83-214):
one remote call, then the provider response is normalized.  The OpenAI
adapter reports `usage?.total_tokens` as is; the Claude adapter always has
usage (`input_tokens + output_tokens`, absent usage modelled as `0`); the
Gemini adapter reports `tokensUsed = 0` because Gemini returns no counts.
`responseTime` is set to `0` here and filled in by `generateResponse`. -/
def runAdapter (env : ProviderEnv) (model : AIModel) (message : String)
    (ctx : ChatContext) : Option AIResponse × Nat :=
  let o := env model message ctx
  match o.result with
  | none => (none, o.elapsed)
  | some content =>
    match model with
    | AIModel.gpt4 =>
        (some { content := content, model := AIModel.gpt4,
                tokensUsed := o.tokens, responseTime := 0 }, o.elapsed)
    | AIModel.gpt4turbo =>
        (some { content := content, model := AIModel.gpt4turbo,
                tokensUsed := o.tokens, responseTime := 0 }, o.elapsed)
    | AIModel.claude35sonnet =>
        (some { content := content, model := AIModel.claude35sonnet,
                tokensUsed := some (o.tokens.getD 0), responseTime := 0 }, o.elapsed)
    | AIModel.geminiPro =>
        (some { content := content, model := AIModel.geminiPro,
                tokensUsed := some 0, responseTime := 0 }, o.elapsed)

/-- Orchestrating method `AIService.generateResponse` (ai.ts lines 41-80).
Here `startTime = Date.now()`
on entry; on success `responseTime = Date.now() - startTime`; on any error,
if the model is not already `gpt-4` the method calls itself recursively with
`gpt-4` and the same message and context (and returns that result unchanged),
otherwise it throws.  Besides the result and the advanced clock, the embedding
returns the list of provider invocations the call performed. -/
def generateResponse (env : ProviderEnv) (message : String) (ctx : ChatContext)
    (model : AIModel) (now : Nat) : Option AIResponse × Nat × List CallRecord :=
  let startTime := now
  let call := runAdapter env model message ctx
  match call.1 with
  | some resp =>
      (some { resp with responseTime := (now + call.2) - startTime },
       now + call.2,
       [{ model := model, message := message, context := ctx }])
  | none =>
      if h : model = AIModel.gpt4 then
        (none, now + call.2, [{ model := model, message := message, context := ctx }])
      else
        let rec2 := generateResponse env message ctx AIModel.gpt4 (now + call.2)
        (rec2.1, rec2.2.1,
         { model := model, message := message, context := ctx } :: rec2.2.2)
termination_by (if model = AIModel.gpt4 then 0 else 1)
decreasing_by simp [h]

/-- The tenant row fields the core reads (`plan`, the `limits` JSON, the
active flag, the display name). -/
structure Tenant where
  id : Nat
  name : String
  plan : String
  limitConversations : Int
  limitMessages : Int
  isActive : Bool
deriving DecidableEq, Repr

/-- One per-type entry of the `checkTenantLimits` result. -/
structure LimitStatus where
  used : Nat
  limit : Int
  exceeded : Bool
deriving DecidableEq, Repr

/-- One entry of the object `DatabaseService.checkTenantLimits` returns
(database.ts lines 218-229): `exceeded = limit > 0 && used >= limit`.
(The reported `limit` field is `limits.x || 0`, which is the identity on a
defined numeric limit, since `0 || 0 = 0` and nonzero numbers are truthy.) -/
def mkLimitStatus (limit : Int) (used : Nat) : LimitStatus :=
  { used := used,
    limit := limit,
    exceeded := decide (0 < limit ∧ limit ≤ (used : Int)) }

/-- Limit check `DatabaseService.checkTenantLimits` (database.ts lines 188-230),
given the
tenant row and the two current-period counts the Prisma queries return
(the calendar-month window is applied inside those external queries). -/
def checkTenantLimits (t : Tenant) (conversationCount messageCount : Nat) :
    LimitStatus × LimitStatus :=
  (mkLimitStatus t.limitConversations conversationCount,
   mkLimitStatus t.limitMessages messageCount)

/-- Message sender enum. -/
inductive Sender
  | USER
  | BOT
deriving DecidableEq, Repr

/-- Conversation status enum. -/
inductive ConvStatus
  | ACTIVE
  | CLOSED
  | PENDING_TRANSFER
deriving DecidableEq, Repr

/-- The chatbot row fields the chat route reads. -/
structure Chatbot where
  id : Nat
  tenantId : Nat
  systemPrompt : String
  isActive : Bool
deriving DecidableEq, Repr

/-- The widget row fields the chat route reads. -/
structure Widget where
  id : Nat
  tenantId : Nat
  chatbotId : Option Nat
  isActive : Bool
deriving DecidableEq, Repr

/-- A conversation row. -/
structure Conversation where
  id : Nat
  tenantId : Nat
  widgetId : Option Nat
  chatbotId : Option Nat
  userId : String
  status : ConvStatus
deriving DecidableEq, Repr

/-- A message row.  Rows are immutable once created. -/
structure StoredMessage where
  id : Nat
  conversationId : Nat
  content : String
  sender : Sender
deriving DecidableEq, Repr

/-- The store.  `messages` is kept in creation order (ascending `createdAt`);
`nextId` generates fresh row ids. -/
structure DB where
  tenants : List Tenant
  chatbots : List Chatbot
  widgets : List Widget
  conversations : List Conversation
  messages : List StoredMessage
  nextId : Nat
deriving DecidableEq, Repr

/-- Query `widget.findUnique` by id. -/
def DB.findWidget (db : DB) (id : Nat) : Option Widget :=
  db.widgets.find? (fun w => w.id == id)

/-- Query `tenant.findUnique` via the `tenant` relation of a widget. -/
def DB.findTenant (db : DB) (id : Nat) : Option Tenant :=
  db.tenants.find? (fun t => t.id == id)

/-- Chatbot lookup via the `chatbot` relation of a widget. -/
def DB.findChatbot (db : DB) (id : Nat) : Option Chatbot :=
  db.chatbots.find? (fun c => c.id == id)

/-- Query `conversation.findUnique` by id. -/
def DB.findConversation (db : DB) (id : Nat) : Option Conversation :=
  db.conversations.find? (fun c => c.id == id)

/-- All messages of one conversation, in creation (chronological) order. -/
def DB.messagesOf (db : DB) (conversationId : Nat) : List StoredMessage :=
  db.messages.filter (fun m => m.conversationId == conversationId)

/-- Count query over the tenant's conversations. -/
def DB.convCountOf (db : DB) (tenantId : Nat) : Nat :=
  (db.conversations.filter (fun c => c.tenantId == tenantId)).length

/-- Count query over the messages of the tenant's conversations. -/
def DB.msgCountOf (db : DB) (tenantId : Nat) : Nat :=
  (db.messages.filter (fun m =>
    match db.findConversation m.conversationId with
    | some c => c.tenantId == tenantId
    | none => false)).length

/-- The validated body of `POST /message` (`chatMessageSchema`); the
`metadata` passthrough is not modelled. -/
structure ChatRequest where
  message : String
  conversationId : Option Nat := none
  widgetId : Nat
  userId : Option String := none
deriving DecidableEq, Repr

/-- The observable outcome of one `POST /message` request, one constructor
per distinct response the middleware chain and the handler can produce. -/
inductive ChatOutcome
  | widgetNotFound
  | widgetInactive
  | accountSuspended
  | limitExceeded (used : Nat) (limit : Int)
  | invalidData
  | chatbotUnavailable
  | conversationNotFound
  | internalError
  | success (conversationId : Nat) (content : String) (model : AIModel)
      (responseTime : Nat) (tokensUsed : Option Nat)
deriving DecidableEq, Repr

/-- Maps a stored sender to the history role the route uses:
`msg.sender === 'USER' ? 'user' : 'assistant'`. -/
def roleOf (s : Sender) : Role :=
  if s = Sender.USER then Role.user else Role.assistant

/-- Context history assembly of the route: the conversation was fetched with
`messages: { orderBy: { createdAt: 'desc' }, take: 10 }` and the handler then
does `conversation.messages.reverse().map(...)`.  `ms` is the conversation's
chronological message list at fetch time. -/
def assembleHistory (ms : List StoredMessage) : List HistoryEntry :=
  ((ms.reverse.take 10).reverse).map
    (fun m => { role := roleOf m.sender, content := m.content })

/-- The context the handler prepares for the AI call: the chatbot's system
prompt, the assembled history, and the tenant display name as company info
(`companyInfo: "Empresa: " + widget.tenant.name`). -/
def turnContext (t : Tenant) (cb : Chatbot) (ms : List StoredMessage) : ChatContext :=
  { systemPrompt := some cb.systemPrompt,
    conversationHistory := some (assembleHistory ms),
    companyInfo := some ("Empresa: " ++ t.name) }

/-- The tail of the `POST /message` handler, from the point where the
conversation is resolved: persist the USER message, assemble the context,
classify, select the model, call `generateResponse`, then either persist the
BOT message and answer with the response metadata, or fall to the catch
handler (the AI failure error message contains no `límite`, so the catch
answers 500). `ms` is the conversation's chronological message list as fetched
before the USER message was inserted. -/
def continueTurn (env : ProviderEnv) (db : DB) (req : ChatRequest) (now : Nat)
    (t : Tenant) (cb : Chatbot) (conv : Conversation) (ms : List StoredMessage) :
    ChatOutcome × DB × List CallRecord :=
  let userMsg : StoredMessage :=
    { id := db.nextId, conversationId := conv.id,
      content := req.message, sender := Sender.USER }
  let db2 := { db with messages := db.messages ++ [userMsg], nextId := db.nextId + 1 }
  let ctx := turnContext t cb ms
  let complexity := detectComplexity req.message
  let model := selectModelForTenant t.plan complexity
  let res := generateResponse env req.message ctx model now
  match res.1 with
  | none => (ChatOutcome.internalError, db2, res.2.2)
  | some resp =>
      let botMsg : StoredMessage :=
        { id := db2.nextId, conversationId := conv.id,
          content := resp.content, sender := Sender.BOT }
      let db3 := { db2 with messages := db2.messages ++ [botMsg], nextId := db2.nextId + 1 }
      (ChatOutcome.success conv.id resp.content resp.model resp.responseTime resp.tokensUsed,
       db3, res.2.2)

/-- One `POST /message` request end to end: the middleware chain
`validateWidgetAccess` (auth.ts lines 209-262) then
`checkUsageLimits('conversations')` (auth.ts lines 143-166), followed by the
handler (route file lines 52-204): zod validation, widget/chatbot checks,
conversation resolution, then `continueTurn`.  The widget re-fetch inside the
handler reads the same store the middleware read, so its repeated
widget-active check cannot fire; the per-IP rate limiter is outside the
model. -/
def postMessage (env : ProviderEnv) (db : DB) (req : ChatRequest) (now : Nat) :
    ChatOutcome × DB × List CallRecord :=
  match db.findWidget req.widgetId with
  | none => (ChatOutcome.widgetNotFound, db, [])
  | some w =>
    if w.isActive then
      match db.findTenant w.tenantId with
      | none => (ChatOutcome.internalError, db, [])
      | some t =>
        if t.isActive then
          let convLimit := (checkTenantLimits t (db.convCountOf t.id) (db.msgCountOf t.id)).1
          if convLimit.exceeded then
            (ChatOutcome.limitExceeded convLimit.used convLimit.limit, db, [])
          else if req.message.length = 0 ∨ 1000 < req.message.length then
            (ChatOutcome.invalidData, db, [])
          else
            match w.chatbotId.bind db.findChatbot with
            | none => (ChatOutcome.chatbotUnavailable, db, [])
            | some cb =>
              if cb.isActive then
                match req.conversationId with
                | some cid =>
                  match db.findConversation cid with
                  | none => (ChatOutcome.conversationNotFound, db, [])
                  | some conv =>
                    if conv.tenantId == w.tenantId then
                      continueTurn env db req now t cb conv (db.messagesOf cid)
                    else
                      (ChatOutcome.conversationNotFound, db, [])
                | none =>
                  let conv : Conversation :=
                    { id := db.nextId, tenantId := w.tenantId,
                      widgetId := some w.id, chatbotId := some cb.id,
                      userId := req.userId.getD ("anonymous_" ++ toString now),
                      status := ConvStatus.ACTIVE }
                  let db1 :=
                    { db with
                      conversations := db.conversations ++ [conv],
                      nextId := db.nextId + 1 }
                  continueTurn env db1 req now t cb conv []
              else
                (ChatOutcome.chatbotUnavailable, db, [])
        else
          (ChatOutcome.accountSuspended, db, [])
    else
      (ChatOutcome.widgetInactive, db, [])

/-- A fresh conversation as the handler creates one when no conversation id
is supplied. -/
def freshConversation (db : DB) (req : ChatRequest) (now : Nat) (w : Widget)
    (cb : Chatbot) : Conversation :=
  { id := db.nextId, tenantId := w.tenantId,
    widgetId := some w.id, chatbotId := some cb.id,
    userId := req.userId.getD ("anonymous_" ++ toString now),
    status := ConvStatus.ACTIVE }

/-! Concrete sample data used to instantiate the theorems below. -/

/-- Provider environment in which every backend answers. -/
def envAllOk : ProviderEnv :=
  fun _ _ _ => { result := some "respuesta", tokens := some 10, elapsed := 2 }

/-- Provider environment in which every backend fails (e.g. a global outage:
every call times out). -/
def envAllFail : ProviderEnv :=
  fun _ _ _ => { result := none, tokens := none, elapsed := 1 }

/-- Provider environment in which only `gpt-4` answers: a non-default primary
model fails after 5 ticks and the fallback answers after 3 ticks. -/
def envOnlyGpt4 : ProviderEnv :=
  fun m _ _ =>
    if m = AIModel.gpt4 then { result := some "ok", tokens := some 7, elapsed := 3 }
    else { result := none, tokens := none, elapsed := 5 }

/-- A starter-plan tenant with the starter limits. -/
def tenantAcme : Tenant :=
  { id := 1, name := "Acme", plan := "starter",
    limitConversations := 500, limitMessages := 2000, isActive := true }

/-- The tenant's chatbot. -/
def botAcme : Chatbot :=
  { id := 2, tenantId := 1, systemPrompt := "Eres el bot de Acme", isActive := true }

/-- The tenant's widget, bound to the chatbot. -/
def widgetAcme : Widget :=
  { id := 3, tenantId := 1, chatbotId := some 2, isActive := true }

/-- An existing ACTIVE conversation of the tenant. -/
def convAcme : Conversation :=
  { id := 4, tenantId := 1, widgetId := some 3, chatbotId := some 2,
    userId := "u1", status := ConvStatus.ACTIVE }

/-- A store holding the tenant, its chatbot/widget, one conversation and
three persisted messages. -/
def dbAcme : DB :=
  { tenants := [tenantAcme], chatbots := [botAcme], widgets := [widgetAcme],
    conversations := [convAcme],
    messages :=
      [ { id := 10, conversationId := 4, content := "hola", sender := Sender.USER },
        { id := 11, conversationId := 4, content := "buenas", sender := Sender.BOT },
        { id := 12, conversationId := 4, content := "precios", sender := Sender.USER } ],
    nextId := 20 }

/-- The same tenant with a conversations limit of 1 (already reached in
`dbAtLimit`). -/
def tenantCapped : Tenant :=
  { id := 1, name := "Acme", plan := "starter",
    limitConversations := 1, limitMessages := 2000, isActive := true }

/-- Store `dbAcme` with the capped tenant: one conversation used, limit 1. -/
def dbAtLimit : DB :=
  { dbAcme with tenants := [tenantCapped] }

/-- A tenant whose limits are `-1` (unlimited). -/
def tenantUnlimited : Tenant :=
  { id := 9, name := "Inf", plan := "enterprise",
    limitConversations := -1, limitMessages := -1, isActive := true }

/-- A valid request continuing the existing conversation. -/
def reqExisting : ChatRequest :=
  { message := "Hola", conversationId := some 4, widgetId := 3, userId := some "u1" }

/-- A request naming a conversation id that does not exist in the store. -/
def reqForeign : ChatRequest :=
  { message := "Hola", conversationId := some 99, widgetId := 3, userId := some "u1" }

/-! Helper lemmas. -/

lemma runAdapter_elapsed (env : ProviderEnv) (model : AIModel) (message : String)
    (ctx : ChatContext) :
    (runAdapter env model message ctx).2 = (env model message ctx).elapsed := by
  unfold runAdapter
  cases h : (env model message ctx).result <;> cases model <;> simp [h]

lemma runAdapter_fst_none (env : ProviderEnv) (model : AIModel) (message : String)
    (ctx : ChatContext) :
    (runAdapter env model message ctx).1 = none ↔ (env model message ctx).result = none := by
  unfold runAdapter
  cases h : (env model message ctx).result <;> cases model <;> simp [h]

lemma runAdapter_map_model (env : ProviderEnv) (model : AIModel) (message : String)
    (ctx : ChatContext) (c : String) (h : (env model message ctx).result = some c) :
    (runAdapter env model message ctx).1.map AIResponse.model = some model := by
  unfold runAdapter
  cases model <;> simp [h]

lemma generateResponse_ok (env : ProviderEnv) (message : String) (ctx : ChatContext)
    (model : AIModel) (now : Nat) (resp : AIResponse)
    (h : (runAdapter env model message ctx).1 = some resp) :
    generateResponse env message ctx model now =
      (some { resp with responseTime := (env model message ctx).elapsed },
       now + (env model message ctx).elapsed,
       [{ model := model, message := message, context := ctx }]) := by
  unfold generateResponse
  simp [h, runAdapter_elapsed]

lemma generateResponse_fail_gpt4 (env : ProviderEnv) (message : String)
    (ctx : ChatContext) (now : Nat)
    (h : (runAdapter env AIModel.gpt4 message ctx).1 = none) :
    generateResponse env message ctx AIModel.gpt4 now =
      (none, now + (env AIModel.gpt4 message ctx).elapsed,
       [{ model := AIModel.gpt4, message := message, context := ctx }]) := by
  unfold generateResponse
  simp [h, runAdapter_elapsed]

lemma generateResponse_fallback_ok (env : ProviderEnv) (message : String)
    (ctx : ChatContext) (model : AIModel) (now : Nat) (resp : AIResponse)
    (h : (runAdapter env model message ctx).1 = none) (hm : model ≠ AIModel.gpt4)
    (h2 : (runAdapter env AIModel.gpt4 message ctx).1 = some resp) :
    generateResponse env message ctx model now =
      (some { resp with responseTime := (env AIModel.gpt4 message ctx).elapsed },
       now + (env model message ctx).elapsed + (env AIModel.gpt4 message ctx).elapsed,
       [{ model := model, message := message, context := ctx },
        { model := AIModel.gpt4, message := message, context := ctx }]) := by
  unfold generateResponse
  simp [h, hm, h2, runAdapter_elapsed,
    generateResponse_ok env message ctx AIModel.gpt4
      (now + (env model message ctx).elapsed) resp h2]

lemma generateResponse_fallback_fail (env : ProviderEnv) (message : String)
    (ctx : ChatContext) (model : AIModel) (now : Nat)
    (h : (runAdapter env model message ctx).1 = none) (hm : model ≠ AIModel.gpt4)
    (h2 : (runAdapter env AIModel.gpt4 message ctx).1 = none) :
    generateResponse env message ctx model now =
      (none,
       now + (env model message ctx).elapsed + (env AIModel.gpt4 message ctx).elapsed,
       [{ model := model, message := message, context := ctx },
        { model := AIModel.gpt4, message := message, context := ctx }]) := by
  unfold generateResponse
  simp [h, hm, h2, runAdapter_elapsed,
    generateResponse_fail_gpt4 env message ctx (now + (env model message ctx).elapsed) h2]

lemma assembleHistory_eq_drop (ms : List StoredMessage) :
    assembleHistory ms =
      (ms.drop (ms.length - 10)).map
        (fun m => { role := roleOf m.sender, content := m.content }) := by
  unfold assembleHistory
  rw [← List.rtake_eq_reverse_take_reverse, List.rtake]

lemma assembleHistory_length (ms : List StoredMessage) :
    (assembleHistory ms).length = min ms.length 10 := by
  unfold assembleHistory
  simp [Nat.min_comm]

lemma findConversation_id (db : DB) (cid : Nat) (conv : Conversation)
    (h : db.findConversation cid = some conv) : conv.id = cid := by
  unfold DB.findConversation at h
  simpa using List.find?_some h

lemma continueTurn_trace (env : ProviderEnv) (db : DB) (req : ChatRequest)
    (now : Nat) (t : Tenant) (cb : Chatbot) (conv : Conversation)
    (ms : List StoredMessage) :
    (continueTurn env db req now t cb conv ms).2.2 =
      (generateResponse env req.message (turnContext t cb ms)
        (selectModelForTenant t.plan (detectComplexity req.message)) now).2.2 := by
  unfold continueTurn
  cases h : (generateResponse env req.message (turnContext t cb ms)
      (selectModelForTenant t.plan (detectComplexity req.message)) now).1 <;>
    simp [h]

lemma continueTurn_ai_fail (env : ProviderEnv) (db : DB) (req : ChatRequest)
    (now : Nat) (t : Tenant) (cb : Chatbot) (conv : Conversation)
    (ms : List StoredMessage)
    (hout : (generateResponse env req.message (turnContext t cb ms)
        (selectModelForTenant t.plan (detectComplexity req.message)) now).1 = none) :
    continueTurn env db req now t cb conv ms =
      (ChatOutcome.internalError,
       { db with
         messages := db.messages ++
           [{ id := db.nextId, conversationId := conv.id,
              content := req.message, sender := Sender.USER }],
         nextId := db.nextId + 1 },
       (generateResponse env req.message (turnContext t cb ms)
          (selectModelForTenant t.plan (detectComplexity req.message)) now).2.2) := by
  unfold continueTurn
  simp [hout]

lemma continueTurn_not_limit (env : ProviderEnv) (db : DB) (req : ChatRequest)
    (now : Nat) (t : Tenant) (cb : Chatbot) (conv : Conversation)
    (ms : List StoredMessage) (u : Nat) (l : Int) :
    (continueTurn env db req now t cb conv ms).1 ≠ ChatOutcome.limitExceeded u l := by
  unfold continueTurn
  cases h : (generateResponse env req.message (turnContext t cb ms)
      (selectModelForTenant t.plan (detectComplexity req.message)) now).1 <;>
    simp [h]

lemma postMessage_resolves (env : ProviderEnv) (db : DB) (req : ChatRequest)
    (now : Nat) (w : Widget) (t : Tenant) (cb : Chatbot)
    (hw : db.findWidget req.widgetId = some w) (hwa : w.isActive = true)
    (ht : db.findTenant w.tenantId = some t) (hta : t.isActive = true)
    (hlim : (checkTenantLimits t (db.convCountOf t.id) (db.msgCountOf t.id)).1.exceeded
      = false)
    (hmsg : ¬(req.message.length = 0 ∨ 1000 < req.message.length))
    (hcb : w.chatbotId.bind db.findChatbot = some cb) (hcba : cb.isActive = true) :
    postMessage env db req now =
      match req.conversationId with
      | some cid =>
        match db.findConversation cid with
        | none => (ChatOutcome.conversationNotFound, db, [])
        | some conv =>
          if conv.tenantId == w.tenantId then
            continueTurn env db req now t cb conv (db.messagesOf cid)
          else
            (ChatOutcome.conversationNotFound, db, [])
      | none =>
        continueTurn env
          { db with
            conversations := db.conversations ++ [freshConversation db req now w cb],
            nextId := db.nextId + 1 }
          req now t cb (freshConversation db req now w cb) [] := by
  unfold postMessage freshConversation
  rw [hw]
  simp only [hwa, ite_true]
  rw [ht]
  simp only [hta, ite_true]
  simp only [hlim, Bool.false_eq_true, ite_false]
  simp only [hmsg, ite_false]
  rw [hcb]
  simp only [hcba, ite_true]

lemma runAdapter_fst_some (env : ProviderEnv) (model : AIModel) (message : String)
    (ctx : ChatContext) (c : String) (h : (env model message ctx).result = some c) :
    ∃ resp, (runAdapter env model message ctx).1 = some resp := by
  unfold runAdapter
  cases model <;> simp [h]

lemma generateResponse_none_of_fail (env : ProviderEnv) (message : String)
    (ctx : ChatContext) (model : AIModel) (now : Nat)
    (hfail : ∀ m s c, (env m s c).result = none) :
    (generateResponse env message ctx model now).1 = none := by
  have h1 : (runAdapter env model message ctx).1 = none :=
    (runAdapter_fst_none _ _ _ _).mpr (hfail _ _ _)
  have h4 : (runAdapter env AIModel.gpt4 message ctx).1 = none :=
    (runAdapter_fst_none _ _ _ _).mpr (hfail _ _ _)
  by_cases hm : model = AIModel.gpt4
  · subst hm
    rw [generateResponse_fail_gpt4 env message ctx now h1]
  · rw [generateResponse_fallback_fail env message ctx model now h1 hm h4]

lemma generateResponse_trace_shape (env : ProviderEnv) (message : String)
    (ctx : ChatContext) (model : AIModel) (now : Nat) :
    (generateResponse env message ctx model now).2.2 ≠ []
    ∧ ∀ c ∈ (generateResponse env message ctx model now).2.2,
        c.message = message ∧ c.context = ctx := by
  by_cases h1 : (runAdapter env model message ctx).1 = none
  · by_cases hm : model = AIModel.gpt4
    · subst hm
      rw [generateResponse_fail_gpt4 env message ctx now h1]
      refine ⟨by simp, ?_⟩
      intro c hc
      simp only [List.mem_singleton] at hc
      subst hc
      exact ⟨rfl, rfl⟩
    · cases h4 : (runAdapter env AIModel.gpt4 message ctx).1 with
      | none =>
        rw [generateResponse_fallback_fail env message ctx model now h1 hm h4]
        refine ⟨by simp, ?_⟩
        intro c hc
        simp only [List.mem_cons, List.mem_singleton, List.not_mem_nil, or_false] at hc
        rcases hc with rfl | rfl <;> exact ⟨rfl, rfl⟩
      | some resp =>
        rw [generateResponse_fallback_ok env message ctx model now resp h1 hm h4]
        refine ⟨by simp, ?_⟩
        intro c hc
        simp only [List.mem_cons, List.mem_singleton, List.not_mem_nil, or_false] at hc
        rcases hc with rfl | rfl <;> exact ⟨rfl, rfl⟩
  · cases h1' : (runAdapter env model message ctx).1 with
    | none => exact absurd h1' h1
    | some resp =>
      rw [generateResponse_ok env message ctx model now resp h1']
      refine ⟨by simp, ?_⟩
      intro c hc
      simp only [List.mem_singleton] at hc
      subst hc
      exact ⟨rfl, rfl⟩

/-- C1: `generateResponse` is a total function (each turn terminates) whose
provider-invocation trace has length at most 2; the selected model is always
invoked first; on a first-attempt success it is the only invocation; on a
first-attempt failure with a non-`gpt-4` selected model, `gpt-4` is invoked
exactly once more with the same message and context and the turn throws iff
that fallback also fails; on a first-attempt failure with `gpt-4` itself
selected, the turn throws with no further attempt. -/
theorem generateResponse_call_discipline :
    ∀ (env : ProviderEnv) (message : String) (ctx : ChatContext)
      (model : AIModel) (now : Nat),
      (generateResponse env message ctx model now).2.2.length ≤ 2
      ∧ (generateResponse env message ctx model now).2.2.head? =
          some { model := model, message := message, context := ctx }
      ∧ ((env model message ctx).result ≠ none →
          (generateResponse env message ctx model now).2.2 =
            [{ model := model, message := message, context := ctx }])
      ∧ ((env model message ctx).result = none → model ≠ AIModel.gpt4 →
          (generateResponse env message ctx model now).2.2 =
            [{ model := model, message := message, context := ctx },
             { model := AIModel.gpt4, message := message, context := ctx }]
          ∧ ((generateResponse env message ctx model now).1 = none ↔
              (env AIModel.gpt4 message ctx).result = none))
      ∧ ((env model message ctx).result = none → model = AIModel.gpt4 →
          (generateResponse env message ctx model now).1 = none
          ∧ (generateResponse env message ctx model now).2.2 =
            [{ model := model, message := message, context := ctx }]) := by
  intro env message ctx model now
  by_cases h1 : (env model message ctx).result = none
  · have hr : (runAdapter env model message ctx).1 = none :=
      (runAdapter_fst_none _ _ _ _).mpr h1
    by_cases hm : model = AIModel.gpt4
    · subst hm
      rw [generateResponse_fail_gpt4 env message ctx now hr]
      exact ⟨by simp, rfl, fun hcon => absurd h1 hcon,
        fun _ hne => absurd rfl hne, fun _ _ => ⟨rfl, rfl⟩⟩
    · cases h4 : (env AIModel.gpt4 message ctx).result with
      | none =>
        have hr4 : (runAdapter env AIModel.gpt4 message ctx).1 = none :=
          (runAdapter_fst_none _ _ _ _).mpr h4
        rw [generateResponse_fallback_fail env message ctx model now hr hm hr4]
        exact ⟨by simp, rfl, fun hcon => absurd h1 hcon,
          fun _ _ => ⟨rfl, by simp⟩, fun _ hmeq => absurd hmeq hm⟩
      | some c =>
        obtain ⟨resp, hr4⟩ := runAdapter_fst_some env AIModel.gpt4 message ctx c h4
        rw [generateResponse_fallback_ok env message ctx model now resp hr hm hr4]
        refine ⟨by simp, rfl, fun hcon => absurd h1 hcon,
          fun _ _ => ⟨rfl, by simp [h4]⟩, fun _ hmeq => absurd hmeq hm⟩
  · obtain ⟨c, hc⟩ := Option.ne_none_iff_exists'.mp h1
    obtain ⟨resp, hr⟩ := runAdapter_fst_some env model message ctx c hc
    rw [generateResponse_ok env message ctx model now resp hr]
    exact ⟨by simp, rfl, fun _ => rfl,
      fun hcon _ => absurd hcon h1, fun hcon _ => absurd hcon h1⟩

/-- Witness for C1: with every provider failing and a non-default selected
model, exactly the selected model and then `gpt-4` are invoked, with the same
payload, and the call throws. -/
theorem generateResponse_call_discipline_witness :
    (generateResponse envAllFail "hola" {} AIModel.claude35sonnet 0).2.2 =
      [{ model := AIModel.claude35sonnet, message := "hola", context := {} },
       { model := AIModel.gpt4, message := "hola", context := {} }]
    ∧ (generateResponse envAllFail "hola" {} AIModel.claude35sonnet 0).1 = none := by
  have h :=
    (generateResponse_call_discipline envAllFail "hola" {} AIModel.claude35sonnet 0).2.2.2.1
      rfl (by decide)
  exact ⟨h.1, h.2.mpr rfl⟩

/-- C9 (amended): `responseTime` is the wall-clock time of the
`generateResponse` invocation level that produced the content, i.e. from that
level's start to its adapter's return: on a primary success it is the primary
call's elapsed time, and on a fallback success it is the fallback call's own
elapsed time — the failed primary attempt's duration is not included.  The
`model` field names the adapter that produced the content. -/
theorem generateResponse_latency_attribution :
    ∀ (env : ProviderEnv) (message : String) (ctx : ChatContext)
      (model : AIModel) (now : Nat),
      ((env model message ctx).result ≠ none →
        (generateResponse env message ctx model now).1.map AIResponse.responseTime =
          some (env model message ctx).elapsed
        ∧ (generateResponse env message ctx model now).1.map AIResponse.model =
          some model)
      ∧ ((env model message ctx).result = none → model ≠ AIModel.gpt4 →
          (env AIModel.gpt4 message ctx).result ≠ none →
        (generateResponse env message ctx model now).1.map AIResponse.responseTime =
          some (env AIModel.gpt4 message ctx).elapsed
        ∧ (generateResponse env message ctx model now).1.map AIResponse.model =
          some AIModel.gpt4) := by
  intro env message ctx model now
  constructor
  · intro h1
    obtain ⟨c, hc⟩ := Option.ne_none_iff_exists'.mp h1
    obtain ⟨resp, hr⟩ := runAdapter_fst_some env model message ctx c hc
    have hmodel := runAdapter_map_model env model message ctx c hc
    rw [hr] at hmodel
    simp only [Option.map_some'] at hmodel
    rw [generateResponse_ok env message ctx model now resp hr]
    simp [hmodel]
  · intro h1 hm h4
    have hr : (runAdapter env model message ctx).1 = none :=
      (runAdapter_fst_none _ _ _ _).mpr h1
    obtain ⟨c, hc⟩ := Option.ne_none_iff_exists'.mp h4
    obtain ⟨resp, hr4⟩ := runAdapter_fst_some env AIModel.gpt4 message ctx c hc
    have hmodel := runAdapter_map_model env AIModel.gpt4 message ctx c hc
    rw [hr4] at hmodel
    simp only [Option.map_some'] at hmodel
    rw [generateResponse_fallback_ok env message ctx model now resp hr hm hr4]
    simp [hmodel]

/-- Witness for C9 (amended): primary fails after 5 ticks, `gpt-4` answers
after 3 ticks; the response reports `responseTime = 3` and model `gpt-4`. -/
theorem generateResponse_latency_attribution_witness :
    (generateResponse envOnlyGpt4 "hola" {} AIModel.geminiPro 0).1.map
        AIResponse.responseTime = some 3
    ∧ (generateResponse envOnlyGpt4 "hola" {} AIModel.geminiPro 0).1.map
        AIResponse.model = some AIModel.gpt4 :=
  (generateResponse_latency_attribution envOnlyGpt4 "hola" {} AIModel.geminiPro 0).2
    rfl (by decide) (by decide)

/-- C9 counterexample: the claim says `responseTime` measures from the start
of the original invocation to the producing adapter's return.  With the
primary model failing after 5 ticks and `gpt-4` answering after 3, the clock
at return reads 8 ticks after the original start, but the returned
`responseTime` is 3: the recursive fallback call resets `startTime`, so the
failed primary attempt's duration is dropped. -/
theorem generateResponse_latency_counterexample :
    (generateResponse envOnlyGpt4 "hola" {} AIModel.geminiPro 0).2.1 = 8
    ∧ (generateResponse envOnlyGpt4 "hola" {} AIModel.geminiPro 0).1.map
        AIResponse.responseTime = some 3
    ∧ (3 : Nat) ≠ 8 := by
  have hr : (runAdapter envOnlyGpt4 AIModel.geminiPro "hola" {}).1 = none := by decide
  have hr4 : (runAdapter envOnlyGpt4 AIModel.gpt4 "hola" {}).1 =
      some { content := "ok", model := AIModel.gpt4, tokensUsed := some 7,
             responseTime := 0 } := by decide
  rw [generateResponse_fallback_ok envOnlyGpt4 "hola" {} AIModel.geminiPro 0 _
    hr (by decide) hr4]
  exact ⟨rfl, rfl, by decide⟩

/-- C3: `selectModelForTenant` realizes the policy table of §4.2 under the
identification economy = `gemini-pro`, standard = `gpt-4`, premium-fast =
`gpt-4-turbo`, premium-deep = `claude-3.5-sonnet`; any plan string outside the
declared enum (in particular any unknown plan) falls to the starter row and
yields `gemini-pro` for every complexity, without raising. -/
theorem selectModelForTenant_policy :
    (selectModelForTenant "enterprise" Complexity.simple = AIModel.gpt4turbo
      ∧ selectModelForTenant "enterprise" Complexity.medium = AIModel.gpt4turbo
      ∧ selectModelForTenant "enterprise" Complexity.complex = AIModel.claude35sonnet)
    ∧ (selectModelForTenant "business" Complexity.simple = AIModel.geminiPro
      ∧ selectModelForTenant "business" Complexity.medium = AIModel.gpt4
      ∧ selectModelForTenant "business" Complexity.complex = AIModel.gpt4)
    ∧ (selectModelForTenant "professional" Complexity.simple = AIModel.geminiPro
      ∧ selectModelForTenant "professional" Complexity.medium = AIModel.geminiPro
      ∧ selectModelForTenant "professional" Complexity.complex = AIModel.gpt4)
    ∧ (∀ c, selectModelForTenant "starter" c = AIModel.geminiPro)
    ∧ (∀ plan : String, plan ≠ "enterprise" → plan ≠ "business" →
        plan ≠ "professional" → ∀ c, selectModelForTenant plan c = AIModel.geminiPro) := by
  refine ⟨⟨rfl, rfl, rfl⟩, ⟨rfl, rfl, rfl⟩, ⟨rfl, rfl, rfl⟩, fun c => rfl, ?_⟩
  intro plan h1 h2 h3 c
  unfold selectModelForTenant
  rw [if_neg h1, if_neg h2, if_neg h3]

/-- Witness for C3: an undeclared plan string maps to `gemini-pro`. -/
theorem selectModelForTenant_policy_witness :
    selectModelForTenant "free" Complexity.medium = AIModel.geminiPro :=
  selectModelForTenant_policy.2.2.2.2 "free" (by decide) (by decide) (by decide)
    Complexity.medium

/-- C4: `detectComplexity` is a total Lean function (hence pure, deterministic
and total); on any message in which the keyword rule does not fire it follows
the length/question-mark thresholds exactly, and the empty string is
`simple`. -/
theorem detectComplexity_threshold_rules :
    (∀ message : String, hasKeywords message = false →
        detectComplexity message =
          if 200 < message.length ∨ 2 < countQuestionMarks message then Complexity.complex
          else if 50 < message.length ∨ 0 < countQuestionMarks message then Complexity.medium
          else Complexity.simple)
    ∧ detectComplexity "" = Complexity.simple := by
  constructor
  · intro message h
    unfold detectComplexity
    simp only [h]
    simp
  · decide

/-- Witness for C4: a short keyword-free message follows the thresholds. -/
theorem detectComplexity_threshold_rules_witness :
    hasKeywords "Hola" = false
    ∧ detectComplexity "Hola" =
        (if 200 < ("Hola" : String).length ∨ 2 < countQuestionMarks "Hola" then
          Complexity.complex
        else if 50 < ("Hola" : String).length ∨ 0 < countQuestionMarks "Hola" then
          Complexity.medium
        else Complexity.simple) :=
  ⟨by decide, detectComplexity_threshold_rules.1 "Hola" (by decide)⟩

/-- C6: for each limit type, `checkTenantLimits` reports `exceeded = true`
exactly when the stored limit is positive and the used count has reached it;
a limit `≤ 0` (e.g. `-1`, unlimited) is never exceeded, for any count. -/
theorem checkTenantLimits_exceeded_rules :
    ∀ (t : Tenant) (conversationCount messageCount : Nat),
      ((checkTenantLimits t conversationCount messageCount).1.exceeded = true ↔
        0 < t.limitConversations ∧ t.limitConversations ≤ (conversationCount : Int))
      ∧ ((checkTenantLimits t conversationCount messageCount).2.exceeded = true ↔
        0 < t.limitMessages ∧ t.limitMessages ≤ (messageCount : Int))
      ∧ (t.limitConversations ≤ 0 →
        (checkTenantLimits t conversationCount messageCount).1.exceeded = false)
      ∧ (t.limitMessages ≤ 0 →
        (checkTenantLimits t conversationCount messageCount).2.exceeded = false) := by
  intro t cc mc
  unfold checkTenantLimits mkLimitStatus
  refine ⟨by simp, by simp, ?_, ?_⟩ <;> intro h <;> simp <;> omega

/-- Witness for C6: an unlimited (`-1`) tenant is not exceeded at huge counts. -/
theorem checkTenantLimits_exceeded_rules_witness :
    (checkTenantLimits tenantUnlimited 1000000 1000000).1.exceeded = false
    ∧ (checkTenantLimits tenantUnlimited 1000000 1000000).2.exceeded = false :=
  ⟨(checkTenantLimits_exceeded_rules tenantUnlimited 1000000 1000000).2.2.1 (by decide),
   (checkTenantLimits_exceeded_rules tenantUnlimited 1000000 1000000).2.2.2 (by decide)⟩

/-- C8 counterexample: the claim's keyword set is the English list of the
spec, but the code's regex stems are Spanish
(`analiz|compar|evalua|explicar|detallar|complejo`).  The message `"analyze"`
contains the spec keyword `"analyze"`, yet `detectComplexity` does not return
`complex` for it (it returns `simple`). -/
theorem detectComplexity_english_keyword_counterexample :
    (["analyze", "compare", "evaluate", "explain in detail", "complex"].any
        (fun k => stemInText k.data (jsToLower "analyze").data)) = true
    ∧ detectComplexity "analyze" = Complexity.simple
    ∧ Complexity.simple ≠ Complexity.complex := by
  refine ⟨by decide, by decide, by decide⟩

/-- C8 (amended): for every message that, case-insensitively, contains one of
the code's analytical-intent stems (`analiz`, `compar`, `evalua`, `explicar`,
`detallar`, `complejo`), `detectComplexity` returns `complex` regardless of
length or question-mark count.  Of the spec's English examples, `compare` and
`evaluate` contain such a stem; `analyze`, `explain in detail` and `complex`
do not. -/
theorem detectComplexity_keyword_complex :
    ∀ message : String, hasKeywords message = true →
      detectComplexity message = Complexity.complex := by
  intro message h
  unfold detectComplexity
  simp [h]

/-- Witness for C8 (amended): a message containing `compare` (which contains
the stem `compar`) is classified `complex`. -/
theorem detectComplexity_keyword_complex_witness :
    hasKeywords "please compare prices" = true
    ∧ detectComplexity "please compare prices" = Complexity.complex :=
  ⟨by decide, detectComplexity_keyword_complex "please compare prices" (by decide)⟩

/-- C7: when the request supplies a conversation id that does not resolve to a
conversation of the widget's tenant (missing row, or a row of another
tenant), the turn fails with the not-found response and has no side effects:
the store is returned unchanged (no conversation created, no message written)
and no provider is invoked. -/
theorem postMessage_foreign_conversation_rejected :
    ∀ (env : ProviderEnv) (db : DB) (req : ChatRequest) (now : Nat)
      (w : Widget) (t : Tenant) (cb : Chatbot) (cid : Nat),
      db.findWidget req.widgetId = some w → w.isActive = true →
      db.findTenant w.tenantId = some t → t.isActive = true →
      (checkTenantLimits t (db.convCountOf t.id) (db.msgCountOf t.id)).1.exceeded
        = false →
      ¬(req.message.length = 0 ∨ 1000 < req.message.length) →
      w.chatbotId.bind db.findChatbot = some cb → cb.isActive = true →
      req.conversationId = some cid →
      (∀ conv, db.findConversation cid = some conv → conv.tenantId ≠ w.tenantId) →
      postMessage env db req now = (ChatOutcome.conversationNotFound, db, []) := by
  intro env db req now w t cb cid hw hwa ht hta hlim hmsg hcb hcba hcid hbad
  rw [postMessage_resolves env db req now w t cb hw hwa ht hta hlim hmsg hcb hcba,
    hcid]
  cases hfc : db.findConversation cid with
  | none => simp [hfc]
  | some conv => simp [hfc, hbad conv hfc]

/-- Witness for C7: a request naming an unknown conversation id is rejected
with no change to the store. -/
theorem postMessage_foreign_conversation_rejected_witness :
    postMessage envAllOk dbAcme reqForeign 0 =
      (ChatOutcome.conversationNotFound, dbAcme, []) := by
  have h9 : dbAcme.findConversation 99 = none := rfl
  exact postMessage_foreign_conversation_rejected envAllOk dbAcme reqForeign 0
    widgetAcme tenantAcme botAcme 99 rfl rfl rfl rfl (by decide) (by decide) rfl rfl
    rfl (fun conv h => by rw [h9] at h; exact Option.noConfusion h)

/-- C2: if the conversation resolves and every provider call fails (so both
the primary and the fallback attempt fail), the turn ends with the 500
failure response, the store gains exactly the user's message (content and
USER sender) and nothing else — in particular zero BOT messages are added —
and, when an existing conversation id was supplied, that conversation now
holds its previous messages plus the user's message. -/
theorem postMessage_ai_failure_keeps_user_message :
    ∀ (env : ProviderEnv) (db : DB) (req : ChatRequest) (now : Nat)
      (w : Widget) (t : Tenant) (cb : Chatbot),
      (∀ m s c, (env m s c).result = none) →
      db.findWidget req.widgetId = some w → w.isActive = true →
      db.findTenant w.tenantId = some t → t.isActive = true →
      (checkTenantLimits t (db.convCountOf t.id) (db.msgCountOf t.id)).1.exceeded
        = false →
      ¬(req.message.length = 0 ∨ 1000 < req.message.length) →
      w.chatbotId.bind db.findChatbot = some cb → cb.isActive = true →
      (req.conversationId = none ∨
        ∃ cid conv, req.conversationId = some cid
          ∧ db.findConversation cid = some conv ∧ conv.tenantId = w.tenantId) →
      ((postMessage env db req now).1 = ChatOutcome.internalError
      ∧ (postMessage env db req now).2.1.messages.map (fun m => (m.content, m.sender)) =
          db.messages.map (fun m => (m.content, m.sender)) ++ [(req.message, Sender.USER)]
      ∧ ∀ cid, req.conversationId = some cid →
          ((postMessage env db req now).2.1.messagesOf cid).map
              (fun m => (m.content, m.sender)) =
            (db.messagesOf cid).map (fun m => (m.content, m.sender)) ++
              [(req.message, Sender.USER)]) := by
  intro env db req now w t cb hfail hw hwa ht hta hlim hmsg hcb hcba hres
  rw [postMessage_resolves env db req now w t cb hw hwa ht hta hlim hmsg hcb hcba]
  rcases hres with h0 | ⟨cid, conv, hcid, hfc, heq⟩
  · simp only [h0]
    rw [continueTurn_ai_fail _ _ _ _ _ _ _ _
      (generateResponse_none_of_fail env req.message (turnContext t cb [])
        (selectModelForTenant t.plan (detectComplexity req.message)) now hfail)]
    refine ⟨rfl, by simp, ?_⟩
    intro cid hcid
    exact Option.noConfusion hcid
  · simp only [hcid, hfc, heq, beq_self_eq_true, ite_true]
    rw [continueTurn_ai_fail _ _ _ _ _ _ _ _
      (generateResponse_none_of_fail env req.message
        (turnContext t cb (db.messagesOf cid))
        (selectModelForTenant t.plan (detectComplexity req.message)) now hfail)]
    have hid := findConversation_id db cid conv hfc
    refine ⟨rfl, by simp, ?_⟩
    intro cid' hcid'
    injection hcid' with hcc
    subst hcc
    unfold DB.messagesOf
    simp [List.filter_append, hid]

/-- Witness for C2: with every provider down, a turn on the existing
conversation fails with the 500 outcome and conversation 4 keeps its three
messages plus the new USER message, with no BOT message added. -/
theorem postMessage_ai_failure_keeps_user_message_witness :
    (postMessage envAllFail dbAcme reqExisting 0).1 = ChatOutcome.internalError
    ∧ ((postMessage envAllFail dbAcme reqExisting 0).2.1.messagesOf 4).map
        (fun m => (m.content, m.sender)) =
      (dbAcme.messagesOf 4).map (fun m => (m.content, m.sender)) ++
        [("Hola", Sender.USER)] := by
  have h := postMessage_ai_failure_keeps_user_message envAllFail dbAcme reqExisting 0
    widgetAcme tenantAcme botAcme (fun _ _ _ => rfl) rfl rfl rfl rfl (by decide)
    (by decide) rfl rfl (Or.inr ⟨4, convAcme, rfl, rfl, rfl⟩)
  exact ⟨h.1, h.2.2 4 rfl⟩

/-- C5: on a turn continuing an existing conversation that held `k` messages
before the current user message was inserted, every provider call of the turn
receives a context whose history is exactly the assembled history of those
`k` messages: `min(k, 10)` entries, the chronologically last ones, in
oldest-first order, with USER mapped to role `user` and BOT to `assistant`
(`roleOf`), and the just-inserted user message excluded (the history is built
from the store as fetched before the insertion). -/
theorem postMessage_context_assembly :
    ∀ (env : ProviderEnv) (db : DB) (req : ChatRequest) (now : Nat)
      (w : Widget) (t : Tenant) (cb : Chatbot) (cid : Nat) (conv : Conversation),
      db.findWidget req.widgetId = some w → w.isActive = true →
      db.findTenant w.tenantId = some t → t.isActive = true →
      (checkTenantLimits t (db.convCountOf t.id) (db.msgCountOf t.id)).1.exceeded
        = false →
      ¬(req.message.length = 0 ∨ 1000 < req.message.length) →
      w.chatbotId.bind db.findChatbot = some cb → cb.isActive = true →
      req.conversationId = some cid →
      db.findConversation cid = some conv → conv.tenantId = w.tenantId →
      ((postMessage env db req now).2.2 ≠ []
      ∧ (∀ c ∈ (postMessage env db req now).2.2,
          c.context.conversationHistory = some (assembleHistory (db.messagesOf cid))
          ∧ c.message = req.message)
      ∧ (assembleHistory (db.messagesOf cid)).length = min (db.messagesOf cid).length 10
      ∧ assembleHistory (db.messagesOf cid) =
          ((db.messagesOf cid).drop ((db.messagesOf cid).length - 10)).map
            (fun m => { role := roleOf m.sender, content := m.content })) := by
  intro env db req now w t cb cid conv hw hwa ht hta hlim hmsg hcb hcba hcid hfc heq
  have key : postMessage env db req now =
      continueTurn env db req now t cb conv (db.messagesOf cid) := by
    rw [postMessage_resolves env db req now w t cb hw hwa ht hta hlim hmsg hcb hcba,
      hcid]
    simp [hfc, heq]
  rw [key, continueTurn_trace]
  have hts := generateResponse_trace_shape env req.message
    (turnContext t cb (db.messagesOf cid))
    (selectModelForTenant t.plan (detectComplexity req.message)) now
  refine ⟨hts.1, ?_, assembleHistory_length _, assembleHistory_eq_drop _⟩
  intro c hc
  have hcc := hts.2 c hc
  exact ⟨by rw [hcc.2]; rfl, hcc.1⟩

/-- Witness for C5: on the sample store (conversation 4 holds 3 messages) the
turn invokes at least one provider and the assembled history has
`min(3, 10) = 3` entries. -/
theorem postMessage_context_assembly_witness :
    (postMessage envAllOk dbAcme reqExisting 0).2.2 ≠ []
    ∧ (assembleHistory (dbAcme.messagesOf 4)).length =
        min (dbAcme.messagesOf 4).length 10 := by
  have h := postMessage_context_assembly envAllOk dbAcme reqExisting 0
    widgetAcme tenantAcme botAcme 4 convAcme rfl rfl rfl rfl (by decide) (by decide)
    rfl rfl rfl rfl rfl
  exact ⟨h.1, h.2.2.1⟩

/-- C10: once the widget resolves to an active widget of an active tenant,
the 429 limit rejection of a chat-message request is equivalent to the
tenant's conversations limit being positive and reached by the tenant's
conversation count — so a reached messages limit alone never produces it —
and the conversations check fires on every such request, including requests
that continue an existing conversation (the equivalence does not depend on
`conversationId`). -/
theorem postMessage_limit_gate :
    ∀ (env : ProviderEnv) (db : DB) (req : ChatRequest) (now : Nat)
      (w : Widget) (t : Tenant),
      db.findWidget req.widgetId = some w → w.isActive = true →
      db.findTenant w.tenantId = some t → t.isActive = true →
      ((∀ u l, (postMessage env db req now).1 = ChatOutcome.limitExceeded u l →
          0 < t.limitConversations
          ∧ t.limitConversations ≤ (db.convCountOf t.id : Int))
      ∧ (0 < t.limitConversations → t.limitConversations ≤ (db.convCountOf t.id : Int) →
          (postMessage env db req now).1 =
            ChatOutcome.limitExceeded (db.convCountOf t.id) t.limitConversations)) := by
  intro env db req now w t hw hwa ht hta
  constructor
  · intro u l heq
    by_cases hex : (checkTenantLimits t (db.convCountOf t.id) (db.msgCountOf t.id)).1.exceeded
        = true
    · unfold checkTenantLimits mkLimitStatus at hex
      simpa using hex
    · exfalso
      have hex' : (checkTenantLimits t (db.convCountOf t.id) (db.msgCountOf t.id)).1.exceeded
          = false := by simpa using hex
      unfold postMessage at heq
      rw [hw] at heq
      simp only [hwa, ite_true] at heq
      rw [ht] at heq
      simp only [hta, ite_true] at heq
      simp only [hex', Bool.false_eq_true, ite_false] at heq
      by_cases hv : (req.message.length = 0 ∨ 1000 < req.message.length)
      · simp [hv] at heq
      · simp only [hv, ite_false] at heq
        cases hbind : w.chatbotId.bind db.findChatbot with
        | none => simp [hbind] at heq
        | some cb =>
          simp only [hbind] at heq
          by_cases hcba : cb.isActive = true
          · simp only [hcba, ite_true] at heq
            cases hrc : req.conversationId with
            | none =>
              simp only [hrc] at heq
              exact continueTurn_not_limit _ _ _ _ _ _ _ _ u l heq
            | some cid =>
              simp only [hrc] at heq
              cases hfc : db.findConversation cid with
              | none => simp [hfc] at heq
              | some conv =>
                simp only [hfc] at heq
                by_cases hbeq : (conv.tenantId == w.tenantId) = true
                · simp only [hbeq, ite_true] at heq
                  exact continueTurn_not_limit _ _ _ _ _ _ _ _ u l heq
                · have hbf : (conv.tenantId == w.tenantId) = false := by
                    simpa using hbeq
                  simp [hbf] at heq
          · have hcf : cb.isActive = false := by simpa using hcba
            simp [hcf] at heq
  · intro hpos hle
    have hex : (checkTenantLimits t (db.convCountOf t.id) (db.msgCountOf t.id)).1.exceeded
        = true := by
      unfold checkTenantLimits mkLimitStatus
      simpa using And.intro hpos hle
    unfold postMessage
    rw [hw]
    simp only [hwa, ite_true]
    rw [ht]
    simp only [hta, ite_true]
    simp only [hex, ite_true]
    rfl

/-- Witness for C10: a tenant with conversations limit 1 and one existing
conversation is rejected with the 429 outcome even though its messages limit
is far from reached and the request continues an existing conversation. -/
theorem postMessage_limit_gate_witness :
    (postMessage envAllOk dbAtLimit reqExisting 0).1 = ChatOutcome.limitExceeded 1 1 := by
  have h := (postMessage_limit_gate envAllOk dbAtLimit reqExisting 0 widgetAcme
    tenantCapped rfl rfl rfl rfl).2 (by decide) (by decide)
  exact h

end Conversa
